import Mathlib

/-!
# Verification of the Optivue enhanced eye tracker

Shallow embedding of the blink/drowsiness state machine, the geometric
feature computations (eye aspect ratio, head-pose divergence check) of
`attached_assets/enhanced_eye_tracker_1760500557427.py`, and the frame
acquisition loop of `server/enhanced_eye_tracking_server.py`.

Python floats are modelled as elements of a linear ordered field: the
blink/drowsiness state machine is stated generically (instantiated at ℚ
for executable witnesses) and the geometry, which needs square roots and
arctangent, is stated over ℝ.
-/

namespace Optivue

/-- Source constant `self.ear_consecutive_frames = 3`: frames the eye must be closed to
count as a blink (enhanced_eye_tracker line 27). -/
def ear_consecutive_frames : Nat := 3

/-- Threshold constant `EAR_THRESHOLD = 0.20` (process_frame line 86). -/
def EAR_THRESHOLD (α : Type) [LinearOrderedField α] : α := 20 / 100

/-- The mutable blink-detection attributes of `EnhancedEyeTracker`
(lines 28-31): `ear_counter`, `total_blinks`, `last_blink_time`,
`blink_rate`.  Timestamps are field elements (seconds). -/
structure BlinkState (α : Type) where
  ear_counter : Nat
  total_blinks : Nat
  last_blink_time : α
  blink_rate : Nat
deriving DecidableEq

/-- Fresh state as built by `__init__` at construction time `t0`. -/
def initBlinkState {α : Type} [LinearOrderedField α] (t0 : α) : BlinkState α :=
  { ear_counter := 0, total_blinks := 0, last_blink_time := t0, blink_rate := 0 }

/-- Lines 89-102 of `process_frame`: the branch on
`avg_ear < EAR_THRESHOLD`.  Returns the updated state and the primary
(sustained-closure) drowsiness flag.  `now` models the `time.time()`
calls made during this frame. -/
def stepEAR {α : Type} [LinearOrderedField α]
    (s : BlinkState α) (avg_ear now : α) : BlinkState α × Bool :=
  if avg_ear < EAR_THRESHOLD α then
    let c := s.ear_counter + 1
    ({ s with ear_counter := c }, decide (ear_consecutive_frames * 5 ≤ c))
  else
    let s1 :=
      if ear_consecutive_frames ≤ s.ear_counter then
        let tb := s.total_blinks + 1
        if 60 < now - s.last_blink_time then
          { s with total_blinks := 0, last_blink_time := now, blink_rate := tb }
        else
          { s with total_blinks := tb }
      else s
    ({ s1 with ear_counter := 0 }, false)

/-- Lines 86-106 of `process_frame`: the `avg_ear` branch followed by the
secondary low-blink-rate drowsiness rule (lines 104-106).  Returns the
updated state and the frame's `is_drowsy` flag. -/
def processFrameEAR {α : Type} [LinearOrderedField α]
    (s : BlinkState α) (avg_ear now : α) : BlinkState α × Bool :=
  let p := stepEAR s avg_ear now
  let drowsy :=
    if 60 < now - p.1.last_blink_time ∧ p.1.blink_rate < 5 then true else p.2
  (p.1, drowsy)

/-- Run the state machine over a list of frames, each given as an
`(avg_ear, now)` pair. -/
def runFrames {α : Type} [LinearOrderedField α]
    (s : BlinkState α) (frames : List (α × α)) : BlinkState α :=
  frames.foldl (fun st f => (processFrameEAR st f.1 f.2).1) s

/-! ## Geometric feature engine (over ℝ) -/

/-- Euclidean distance `dist.euclidean` between 2-D points. -/
noncomputable def euclidean (p q : ℝ × ℝ) : ℝ :=
  Real.sqrt ((p.1 - q.1) ^ 2 + (p.2 - q.2) ^ 2)

/-- Method `_calculate_ear` (lines 44-48): the eye aspect ratio of six ordered
contour points, with fallback `0.3` when the horizontal distance is
zero. -/
noncomputable def calculate_ear (e : Fin 6 → ℝ × ℝ) : ℝ :=
  let A := euclidean (e 1) (e 5)
  let B := euclidean (e 2) (e 4)
  let C := euclidean (e 0) (e 3)
  if C ≠ 0 then (A + B) / (2 * C) else 3 / 10

/-- Line 84: `avg_ear` is the mean of the two per-eye ratios. -/
noncomputable def avg_ear (l r : Fin 6 → ℝ × ℝ) : ℝ :=
  (calculate_ear l + calculate_ear r) / 2

/-- Yaw decomposition `np.degrees(np.arctan2(-R20, sy))` (line 75).  The code evaluates the
yaw only after checking `sy ≥ 1e-6 > 0`, and for a positive second
argument `atan2` coincides with `arctan` of the quotient. -/
noncomputable def head_yaw_deg (R20 sy : ℝ) : ℝ :=
  Real.arctan (-R20 / sy) * (180 / Real.pi)

/-- The outputs of `cv2.solvePnP` / `cv2.Rodrigues` that `process_frame`
reads: the success flag and the three rotation-matrix entries used by
the yaw decomposition (`R[0,0]`, `R[1,0]`, `R[2,0]`). -/
structure PoseObs where
  pose_success : Bool
  R00 : ℝ
  R10 : ℝ
  R20 : ℝ

/-- Lines 70-77: `is_diverted` starts `True` and is cleared only when
the pose solve succeeded, the denominator `sy = sqrt(R00² + R10²)` is at
least `1e-6`, and the absolute yaw is below 25 degrees. -/
noncomputable def computeDiverted (p : PoseObs) : Bool :=
  if p.pose_success then
    let sy := Real.sqrt (p.R00 ^ 2 + p.R10 ^ 2)
    if 1 / 1000000 ≤ sy then
      if |head_yaw_deg p.R20 sy| < 25 then false else true
    else true
  else true

/-- What one successfully detected face contributes to a frame: the pose
observation plus the six pixel-space contour points of each eye
(landmark indices `LEFT_EYE_INDICES` / `RIGHT_EYE_INDICES` scaled by the
image size, lines 80-83). -/
structure FaceObs where
  pose : PoseObs
  leftEye : Fin 6 → ℝ × ℝ
  rightEye : Fin 6 → ℝ × ℝ

/-- The result dictionary of `process_frame`: `blink_count` is present
only in the face-detected dictionary (line 108), hence an `Option`. -/
structure FrameOutput where
  face_detected : Bool
  is_diverted : Bool
  is_drowsy : Bool
  blink_count : Option Nat
  success : Bool
deriving DecidableEq

/-- Method `process_frame` (lines 50-108).  `faceMeshOk` models
`self.face_mesh is not None`; `obs` models the landmark-provider result
(`none` when `results.multi_face_landmarks` is empty); `now` models the
`time.time()` calls of this frame.  Returns the updated tracker state
and the result dictionary. -/
noncomputable def process_frame (faceMeshOk : Bool) (s : BlinkState ℝ)
    (obs : Option FaceObs) (now : ℝ) : BlinkState ℝ × FrameOutput :=
  if faceMeshOk = false then
    (s, ⟨false, true, false, none, false⟩)
  else
    match obs with
    | none => (s, ⟨false, true, false, none, true⟩)
    | some o =>
        let diverted := computeDiverted o.pose
        let avg := avg_ear o.leftEye o.rightEye
        let p := processFrameEAR s avg now
        (p.1, ⟨true, diverted, p.2, some p.1.total_blinks, true⟩)

/-! ## Frame acquisition loop of `server/enhanced_eye_tracking_server.py` -/

/-- One `cap.read()` outcome inside `_read_frames`. -/
inductive ReadOutcome where
  | ok
  | failed
deriving DecidableEq

/-- The loop-relevant state of `_read_frames`: the local `failed_reads`
counter, the shared `camera_active` flag, and whether the `while` loop
is still iterating (it breaks once the failure bound is reached). -/
structure LoopState where
  failed_reads : Nat
  camera_active : Bool
  looping : Bool
deriving DecidableEq

/-- Bound `max_failed_reads = 10` (line 40). -/
def max_failed_reads : Nat := 10

/-- State at the top of `_read_frames` (line 39): `failed_reads = 0`,
camera active, loop running. -/
def initLoopState : LoopState :=
  { failed_reads := 0, camera_active := true, looping := true }

/-- One iteration of the `while` body for a frame-read attempt
(lines 42-62): nothing happens once the loop has exited or the camera
was deactivated; a failed read increments `failed_reads` and, when the
bound is reached, sets `camera_active = False` and breaks; a successful
read resets `failed_reads` to 0. -/
def loopStep (ls : LoopState) (ev : ReadOutcome) : LoopState :=
  if ls.looping ∧ ls.camera_active then
    match ev with
    | .failed =>
        let f := ls.failed_reads + 1
        if max_failed_reads ≤ f then
          { failed_reads := f, camera_active := false, looping := false }
        else
          { ls with failed_reads := f }
    | .ok => { ls with failed_reads := 0 }
  else ls

/-- Fold the loop body over a sequence of read outcomes. -/
def runLoop (ls : LoopState) (evs : List ReadOutcome) : LoopState :=
  evs.foldl loopStep ls

/-! ## Concrete fixtures used by witnesses -/

/-- A concrete non-degenerate eye contour: horizontal distance 2,
vertical distances 1 and 1, hence aspect ratio `(1+1)/(2·2) = 1/2`. -/
def testEye : Fin 6 → ℝ × ℝ
  | 0 => (0, 0)
  | 1 => (1, 1)
  | 2 => (1, 2)
  | 3 => (2, 0)
  | 4 => (1, 1)
  | 5 => (1, 0)

/-- A degenerate eye contour: all six landmarks coincide, so the
horizontal distance is zero. -/
def degenEye : Fin 6 → ℝ × ℝ := fun _ => (0, 0)

/-! ## Branch characterisations of the state machine -/

lemma runFrames_nil {α : Type} [LinearOrderedField α] (s : BlinkState α) :
    runFrames s [] = s := rfl

lemma runFrames_cons {α : Type} [LinearOrderedField α]
    (s : BlinkState α) (f : α × α) (fs : List (α × α)) :
    runFrames s (f :: fs) = runFrames (processFrameEAR s f.1 f.2).1 fs := rfl

lemma processFrameEAR_fst {α : Type} [LinearOrderedField α]
    (s : BlinkState α) (avg_ear now : α) :
    (processFrameEAR s avg_ear now).1 = (stepEAR s avg_ear now).1 := rfl

/-- Closed-eye branch (lines 89-92): the counter is incremented and the
primary drowsiness flag compares it against `3 * 5 = 15`. -/
lemma stepEAR_of_lt {α : Type} [LinearOrderedField α]
    (s : BlinkState α) (avg_ear now : α) (h : avg_ear < EAR_THRESHOLD α) :
    stepEAR s avg_ear now =
      ({ s with ear_counter := s.ear_counter + 1 },
        decide (ear_consecutive_frames * 5 ≤ s.ear_counter + 1)) := by
  simp [stepEAR, h]

/-- Open branch, long closure, window rollover (lines 94-101 with the
60-second test true): the incremented blink total moves into
`blink_rate` and `total_blinks` restarts at 0. -/
lemma stepEAR_of_ge_blink_roll {α : Type} [LinearOrderedField α]
    (s : BlinkState α) (avg_ear now : α) (h : ¬ avg_ear < EAR_THRESHOLD α)
    (hc : ear_consecutive_frames ≤ s.ear_counter)
    (ht : 60 < now - s.last_blink_time) :
    stepEAR s avg_ear now =
      (⟨0, 0, now, s.total_blinks + 1⟩, false) := by
  simp [stepEAR, h, hc, ht]

/-- Open branch, long closure, no rollover: exactly one blink is added. -/
lemma stepEAR_of_ge_blink_noroll {α : Type} [LinearOrderedField α]
    (s : BlinkState α) (avg_ear now : α) (h : ¬ avg_ear < EAR_THRESHOLD α)
    (hc : ear_consecutive_frames ≤ s.ear_counter)
    (ht : now - s.last_blink_time ≤ 60) :
    stepEAR s avg_ear now =
      (⟨0, s.total_blinks + 1, s.last_blink_time, s.blink_rate⟩, false) := by
  simp [stepEAR, h, hc, not_lt.mpr ht]

/-- Open branch after a short closure (counter below 3): only the
counter is reset. -/
lemma stepEAR_of_ge_short {α : Type} [LinearOrderedField α]
    (s : BlinkState α) (avg_ear now : α) (h : ¬ avg_ear < EAR_THRESHOLD α)
    (hc : s.ear_counter < ear_consecutive_frames) :
    stepEAR s avg_ear now =
      (⟨0, s.total_blinks, s.last_blink_time, s.blink_rate⟩, false) := by
  simp [stepEAR, h, not_le.mpr hc]

/-- Any run of frames that all sit below the closed-eye threshold leaves
`total_blinks` untouched and adds its length to the counter. -/
lemma runFrames_all_closed (s : BlinkState ℚ) (fs : List (ℚ × ℚ))
    (h : ∀ f ∈ fs, f.1 < EAR_THRESHOLD ℚ) :
    (runFrames s fs).total_blinks = s.total_blinks ∧
    (runFrames s fs).ear_counter = s.ear_counter + fs.length := by
  induction fs generalizing s with
  | nil => simp [runFrames_nil]
  | cons f fs ih =>
      have hf : f.1 < EAR_THRESHOLD ℚ := h f (List.mem_cons_self f fs)
      have hstep : (processFrameEAR s f.1 f.2).1 =
          { s with ear_counter := s.ear_counter + 1 } := by
        rw [processFrameEAR_fst, stepEAR_of_lt _ _ _ hf]
      rw [runFrames_cons, hstep]
      obtain ⟨h1, h2⟩ :=
        ih { s with ear_counter := s.ear_counter + 1 }
          (fun g hg => h g (List.mem_cons_of_mem f hg))
      refine ⟨h1, ?_⟩
      rw [h2]
      simp [List.length_cons]
      omega

/-! ## Claim theorems -/

/-- C2: on every frame with `avg_ear` below the closed threshold the
consecutive-closed counter is incremented and `total_blinks` is left
unchanged; as soon as the incremented counter reaches the sustained
threshold `ear_consecutive_frames * 5 = 15` (≈0.5 s at 30 fps) the
frame's `is_drowsy` flag is true; over a whole run of closed frames
`blink_count` never changes. -/
theorem C2_closed_frames_drowsiness :
    (∀ (s : BlinkState ℚ) (avg now : ℚ), avg < EAR_THRESHOLD ℚ →
      (processFrameEAR s avg now).1.ear_counter = s.ear_counter + 1 ∧
      (processFrameEAR s avg now).1.total_blinks = s.total_blinks ∧
      (ear_consecutive_frames * 5 ≤ s.ear_counter + 1 →
        (processFrameEAR s avg now).2 = true)) ∧
    (∀ (s : BlinkState ℚ) (fs : List (ℚ × ℚ)),
      (∀ f ∈ fs, f.1 < EAR_THRESHOLD ℚ) →
      (runFrames s fs).total_blinks = s.total_blinks ∧
      (runFrames s fs).ear_counter = s.ear_counter + fs.length) := by
  constructor
  · intro s avg now h
    have hs := stepEAR_of_lt s avg now h
    have h1 : (processFrameEAR s avg now).1 =
        { s with ear_counter := s.ear_counter + 1 } := by
      rw [processFrameEAR_fst, hs]
    refine ⟨by rw [h1], by rw [h1], ?_⟩
    intro hc
    simp only [processFrameEAR, hs]
    split_ifs with hsec
    · rfl
    · simpa using hc
  · exact runFrames_all_closed

/-- Witness for C2 at a concrete state: the 15th consecutive closed
frame is flagged drowsy and leaves the blink total at 2. -/
theorem C2_witness :
    (processFrameEAR (⟨14, 2, (0:ℚ), 0⟩ : BlinkState ℚ) (1/10) 1).1.ear_counter = 15 ∧
    (processFrameEAR (⟨14, 2, (0:ℚ), 0⟩ : BlinkState ℚ) (1/10) 1).1.total_blinks = 2 ∧
    (processFrameEAR (⟨14, 2, (0:ℚ), 0⟩ : BlinkState ℚ) (1/10) 1).2 = true := by
  have h := C2_closed_frames_drowsiness.1 ⟨14, 2, (0:ℚ), 0⟩ (1/10) 1
    (by norm_num [EAR_THRESHOLD])
  exact ⟨h.1, h.2.1, h.2.2 (by norm_num [ear_consecutive_frames])⟩

/-- C1 as frozen is false: after a full closure episode of exactly 3
closed frames, an opening frame that arrives more than 60 seconds after
`last_blink_time` leaves `total_blinks` at 0 (the increment is absorbed
by the rolling-window reset), not at `initial + 1`. -/
theorem C1_counterexample :
    ((1:ℚ)/10 < EAR_THRESHOLD ℚ) ∧
    ¬ ((3:ℚ)/10 < EAR_THRESHOLD ℚ) ∧
    ear_consecutive_frames ≤
      (runFrames (initBlinkState (0:ℚ)) [(1/10, 1), (1/10, 2), (1/10, 3)]).ear_counter ∧
    ¬ ((runFrames (initBlinkState (0:ℚ))
          [(1/10, 1), (1/10, 2), (1/10, 3), (3/10, 100)]).total_blinks
        = (initBlinkState (0:ℚ)).total_blinks + 1) := by
  norm_num [runFrames, processFrameEAR, stepEAR, initBlinkState, EAR_THRESHOLD,
    ear_consecutive_frames]

/-- C1 amended: at an open transition after at least 3 consecutive
closed frames, `total_blinks` increases by exactly 1 and the counter
resets to 0 *provided* no more than 60 seconds have elapsed since
`last_blink_time`; when more than 60 seconds have elapsed the
incremented total is moved into `blink_rate` and `total_blinks`
restarts at 0; an episode of fewer than 3 closed frames never changes
`total_blinks`, and closed frames themselves never change it. -/
theorem C1_blink_on_open_transition :
    (∀ (s : BlinkState ℚ) (avg now : ℚ), EAR_THRESHOLD ℚ ≤ avg →
      ear_consecutive_frames ≤ s.ear_counter → now - s.last_blink_time ≤ 60 →
      (processFrameEAR s avg now).1.total_blinks = s.total_blinks + 1 ∧
      (processFrameEAR s avg now).1.ear_counter = 0) ∧
    (∀ (s : BlinkState ℚ) (avg now : ℚ), EAR_THRESHOLD ℚ ≤ avg →
      ear_consecutive_frames ≤ s.ear_counter → 60 < now - s.last_blink_time →
      (processFrameEAR s avg now).1.total_blinks = 0 ∧
      (processFrameEAR s avg now).1.blink_rate = s.total_blinks + 1 ∧
      (processFrameEAR s avg now).1.ear_counter = 0) ∧
    (∀ (s : BlinkState ℚ) (avg now : ℚ), EAR_THRESHOLD ℚ ≤ avg →
      s.ear_counter < ear_consecutive_frames →
      (processFrameEAR s avg now).1.total_blinks = s.total_blinks ∧
      (processFrameEAR s avg now).1.ear_counter = 0) ∧
    (∀ (s : BlinkState ℚ) (avg now : ℚ), avg < EAR_THRESHOLD ℚ →
      (processFrameEAR s avg now).1.total_blinks = s.total_blinks) := by
  refine ⟨?_, ?_, ?_, ?_⟩
  · intro s avg now h hc ht
    rw [processFrameEAR_fst, stepEAR_of_ge_blink_noroll s avg now (not_lt.mpr h) hc ht]
    exact ⟨rfl, rfl⟩
  · intro s avg now h hc ht
    rw [processFrameEAR_fst, stepEAR_of_ge_blink_roll s avg now (not_lt.mpr h) hc ht]
    exact ⟨rfl, rfl, rfl⟩
  · intro s avg now h hc
    rw [processFrameEAR_fst, stepEAR_of_ge_short s avg now (not_lt.mpr h) hc]
    exact ⟨rfl, rfl⟩
  · intro s avg now h
    rw [processFrameEAR_fst, stepEAR_of_lt s avg now h]

/-- Witness for C1 amended: a blink counted within the window. -/
theorem C1_witness :
    (processFrameEAR (⟨3, 0, (0:ℚ), 0⟩ : BlinkState ℚ) (3/10) 1).1.total_blinks = 1 ∧
    (processFrameEAR (⟨3, 0, (0:ℚ), 0⟩ : BlinkState ℚ) (3/10) 1).1.ear_counter = 0 := by
  have h := C1_blink_on_open_transition.1 ⟨3, 0, (0:ℚ), 0⟩ (3/10) 1
    (by norm_num [EAR_THRESHOLD]) (by norm_num [ear_consecutive_frames]) (by norm_num)
  exact ⟨h.1, h.2⟩

/-- C3 as frozen is false: within one uninterrupted run of processed
frames (no reset operation exists in `runFrames`), the reported
`total_blinks` climbs to 1 after a first blink and then falls back to 0
when a second blink lands more than 60 seconds after `last_blink_time` —
the rolling-window reset, not a session reset, zeroes it. -/
theorem C3_counterexample :
    (runFrames (initBlinkState (0:ℚ))
        [(1/10, 1), (1/10, 2), (1/10, 3), (3/10, 4)]).total_blinks = 1 ∧
    (runFrames (initBlinkState (0:ℚ))
        [(1/10, 1), (1/10, 2), (1/10, 3), (3/10, 4),
         (1/10, 5), (1/10, 6), (1/10, 7), (3/10, 70)]).total_blinks = 0 := by
  norm_num [runFrames, processFrameEAR, stepEAR, initBlinkState, EAR_THRESHOLD,
    ear_consecutive_frames]

/-- C3 amended: `total_blinks` is non-decreasing on every frame that
arrives at most 60 seconds after `last_blink_time`; it is set to 0,
without any session reset, exactly when a blink is counted more than 60
seconds after `last_blink_time` (the rolling-window rollover). -/
theorem C3_monotone_within_window :
    (∀ (s : BlinkState ℚ) (avg now : ℚ), now - s.last_blink_time ≤ 60 →
      s.total_blinks ≤ (processFrameEAR s avg now).1.total_blinks) ∧
    (∀ (s : BlinkState ℚ) (avg now : ℚ), EAR_THRESHOLD ℚ ≤ avg →
      ear_consecutive_frames ≤ s.ear_counter → 60 < now - s.last_blink_time →
      (processFrameEAR s avg now).1.total_blinks = 0) := by
  constructor
  · intro s avg now ht
    rcases lt_or_le avg (EAR_THRESHOLD ℚ) with h | h
    · rw [processFrameEAR_fst, stepEAR_of_lt s avg now h]
    · rcases lt_or_le s.ear_counter ear_consecutive_frames with hc | hc
      · rw [processFrameEAR_fst, stepEAR_of_ge_short s avg now (not_lt.mpr h) hc]
      · rw [processFrameEAR_fst, stepEAR_of_ge_blink_noroll s avg now (not_lt.mpr h) hc ht]
        exact Nat.le_succ _
  · intro s avg now h hc ht
    rw [processFrameEAR_fst, stepEAR_of_ge_blink_roll s avg now (not_lt.mpr h) hc ht]

/-- Witness for C3 amended: a frame within the window cannot lower the
total. -/
theorem C3_witness :
    (⟨0, 4, (0:ℚ), 0⟩ : BlinkState ℚ).total_blinks ≤
      (processFrameEAR (⟨0, 4, (0:ℚ), 0⟩ : BlinkState ℚ) (3/10) 1).1.total_blinks := by
  exact C3_monotone_within_window.1 ⟨0, 4, (0:ℚ), 0⟩ (3/10) 1 (by norm_num)

/-- C4 as frozen is false: on a frame with no blink being counted
(counter 0, open eye) arriving 100 s after `last_blink_time`, more than
60 seconds have elapsed, yet `total_blinks` stays 5 and
`last_blink_time` stays 0 — the rollover test is nested inside the
blink-counting branch and is not executed on every frame. -/
theorem C4_counterexample :
    (60 : ℚ) < 100 - (⟨0, 5, (0:ℚ), 0⟩ : BlinkState ℚ).last_blink_time ∧
    (processFrameEAR (⟨0, 5, (0:ℚ), 0⟩ : BlinkState ℚ) (3/10) 100).1.total_blinks = 5 ∧
    (processFrameEAR (⟨0, 5, (0:ℚ), 0⟩ : BlinkState ℚ) (3/10) 100).1.last_blink_time = 0 ∧
    (processFrameEAR (⟨0, 5, (0:ℚ), 0⟩ : BlinkState ℚ) (3/10) 100).1.blink_rate = 0 := by
  norm_num [processFrameEAR, stepEAR, EAR_THRESHOLD, ear_consecutive_frames]

/-- C4 amended: the rolling-window recomputation runs only on frames
where a blink is counted (an open frame after ≥3 consecutive closed
frames).  On such a frame with more than 60 seconds elapsed since
`last_blink_time`, `blink_rate` becomes the incremented `total_blinks`,
`total_blinks` is reset to 0 and `last_blink_time` to `now`; on every
other kind of frame `blink_rate` and `last_blink_time` are unchanged. -/
theorem C4_window_rollover :
    (∀ (s : BlinkState ℚ) (avg now : ℚ), EAR_THRESHOLD ℚ ≤ avg →
      ear_consecutive_frames ≤ s.ear_counter → 60 < now - s.last_blink_time →
      (processFrameEAR s avg now).1.blink_rate = s.total_blinks + 1 ∧
      (processFrameEAR s avg now).1.total_blinks = 0 ∧
      (processFrameEAR s avg now).1.last_blink_time = now) ∧
    (∀ (s : BlinkState ℚ) (avg now : ℚ), avg < EAR_THRESHOLD ℚ →
      (processFrameEAR s avg now).1.blink_rate = s.blink_rate ∧
      (processFrameEAR s avg now).1.last_blink_time = s.last_blink_time) ∧
    (∀ (s : BlinkState ℚ) (avg now : ℚ), EAR_THRESHOLD ℚ ≤ avg →
      s.ear_counter < ear_consecutive_frames →
      (processFrameEAR s avg now).1.blink_rate = s.blink_rate ∧
      (processFrameEAR s avg now).1.last_blink_time = s.last_blink_time) ∧
    (∀ (s : BlinkState ℚ) (avg now : ℚ), EAR_THRESHOLD ℚ ≤ avg →
      ear_consecutive_frames ≤ s.ear_counter → now - s.last_blink_time ≤ 60 →
      (processFrameEAR s avg now).1.blink_rate = s.blink_rate ∧
      (processFrameEAR s avg now).1.last_blink_time = s.last_blink_time) := by
  refine ⟨?_, ?_, ?_, ?_⟩
  · intro s avg now h hc ht
    rw [processFrameEAR_fst, stepEAR_of_ge_blink_roll s avg now (not_lt.mpr h) hc ht]
    exact ⟨rfl, rfl, rfl⟩
  · intro s avg now h
    rw [processFrameEAR_fst, stepEAR_of_lt s avg now h]
    exact ⟨rfl, rfl⟩
  · intro s avg now h hc
    rw [processFrameEAR_fst, stepEAR_of_ge_short s avg now (not_lt.mpr h) hc]
    exact ⟨rfl, rfl⟩
  · intro s avg now h hc ht
    rw [processFrameEAR_fst, stepEAR_of_ge_blink_noroll s avg now (not_lt.mpr h) hc ht]
    exact ⟨rfl, rfl⟩

/-- Witness for C4 amended: a rollover frame at a concrete state. -/
theorem C4_witness :
    (processFrameEAR (⟨3, 4, (0:ℚ), 0⟩ : BlinkState ℚ) (3/10) 100).1.blink_rate = 5 ∧
    (processFrameEAR (⟨3, 4, (0:ℚ), 0⟩ : BlinkState ℚ) (3/10) 100).1.total_blinks = 0 ∧
    (processFrameEAR (⟨3, 4, (0:ℚ), 0⟩ : BlinkState ℚ) (3/10) 100).1.last_blink_time = 100 := by
  have h := C4_window_rollover.1 ⟨3, 4, (0:ℚ), 0⟩ (3/10) 100
    (by norm_num [EAR_THRESHOLD]) (by norm_num [ear_consecutive_frames]) (by norm_num)
  exact ⟨h.1, h.2.1, h.2.2⟩

/-- C5: `euclidean` is the genuine Euclidean plane distance (the complex
absolute value of the coordinate difference); the per-eye aspect ratio
is `(‖p1-p5‖ + ‖p2-p4‖) / (2·‖p0-p3‖)` whenever `‖p0-p3‖ ≠ 0` and the
fixed eyes-open fallback `0.3` when it is zero, so no division by zero
ever occurs; `avg_ear` is the arithmetic mean of the two per-eye
ratios. -/
theorem C5_ear_formula :
    (∀ p q : ℝ × ℝ,
      euclidean p q = Complex.abs (⟨p.1 - q.1, p.2 - q.2⟩ : ℂ)) ∧
    (∀ e : Fin 6 → ℝ × ℝ, euclidean (e 0) (e 3) ≠ 0 →
      calculate_ear e =
        (euclidean (e 1) (e 5) + euclidean (e 2) (e 4)) /
          (2 * euclidean (e 0) (e 3))) ∧
    (∀ e : Fin 6 → ℝ × ℝ, euclidean (e 0) (e 3) = 0 →
      calculate_ear e = 3 / 10) ∧
    (∀ l r : Fin 6 → ℝ × ℝ,
      avg_ear l r = (calculate_ear l + calculate_ear r) / 2) := by
  refine ⟨?_, ?_, ?_, ?_⟩
  · intro p q
    rw [euclidean, Complex.abs_apply, Complex.normSq_mk]
    ring_nf
  · intro e h
    simp only [calculate_ear]
    rw [if_pos h]
  · intro e h
    simp only [calculate_ear]
    rw [if_neg (by simpa using h)]
  · intro l r
    rfl

/-- Witness for C5: on the concrete contour `testEye` the horizontal
distance is the nonzero value 2 and the ratio evaluates to `1/2`. -/
theorem C5_witness :
    euclidean (testEye 0) (testEye 3) = 2 ∧
    calculate_ear testEye = 1 / 2 := by
  have h03 : euclidean (testEye 0) (testEye 3) = 2 := by
    show Real.sqrt (((0:ℝ) - 2) ^ 2 + ((0:ℝ) - 0) ^ 2) = 2
    rw [show ((0:ℝ) - 2) ^ 2 + ((0:ℝ) - 0) ^ 2 = 2 ^ 2 by norm_num]
    exact Real.sqrt_sq (by norm_num)
  have h15 : euclidean (testEye 1) (testEye 5) = 1 := by
    show Real.sqrt (((1:ℝ) - 1) ^ 2 + ((1:ℝ) - 0) ^ 2) = 1
    norm_num
  have h24 : euclidean (testEye 2) (testEye 4) = 1 := by
    show Real.sqrt (((1:ℝ) - 1) ^ 2 + ((2:ℝ) - 1) ^ 2) = 1
    norm_num
  have hne : euclidean (testEye 0) (testEye 3) ≠ 0 := by
    rw [h03]; norm_num
  have h := C5_ear_formula.2.1 testEye hne
  refine ⟨h03, ?_⟩
  rw [h, h03, h15, h24]
  norm_num

/-- C6: `is_diverted` is true on every no-face frame, equals the
pose-derived flag on every face frame, is true whenever the pose solve
failed or the denominator `sy` is below `1e-6`, and on a successful
solve with `sy ≥ 1e-6` it is false exactly when the absolute head yaw
in degrees is below the 25-degree divergence threshold. -/
theorem C6_divertedness :
    (∀ (s : BlinkState ℝ) (now : ℝ),
      (process_frame true s none now).2.is_diverted = true) ∧
    (∀ (s : BlinkState ℝ) (o : FaceObs) (now : ℝ),
      (process_frame true s (some o) now).2.is_diverted = computeDiverted o.pose) ∧
    (∀ p : PoseObs, p.pose_success = false → computeDiverted p = true) ∧
    (∀ p : PoseObs, Real.sqrt (p.R00 ^ 2 + p.R10 ^ 2) < 1 / 1000000 →
      computeDiverted p = true) ∧
    (∀ p : PoseObs, p.pose_success = true →
      1 / 1000000 ≤ Real.sqrt (p.R00 ^ 2 + p.R10 ^ 2) →
      (computeDiverted p = false ↔
        |head_yaw_deg p.R20 (Real.sqrt (p.R00 ^ 2 + p.R10 ^ 2))| < 25)) := by
  refine ⟨?_, ?_, ?_, ?_, ?_⟩
  · intro s now
    rfl
  · intro s o now
    rfl
  · intro p h
    simp [computeDiverted, h]
  · intro p h
    simp only [computeDiverted]
    split_ifs with h1 h2 h3
    · exact absurd h2 (not_le.mpr h)
    · rfl
    · rfl
    · rfl
  · intro p hs hle
    simp only [computeDiverted, hs, if_true, if_pos hle]
    split_ifs with h3 <;> simp [h3]

/-- Witness for C6: with `R00 = 1, R10 = 0` the denominator is 1, so a
rotation entry `R20 = -1` gives yaw `arctan 1 · 180/π = 45°` (diverted)
while `R20 = 0` gives yaw `0°` (not diverted). -/
theorem C6_witness :
    computeDiverted ⟨true, 1, 0, -1⟩ = true ∧
    computeDiverted ⟨true, 1, 0, 0⟩ = false := by
  have hsy : Real.sqrt ((1:ℝ) ^ 2 + (0:ℝ) ^ 2) = 1 := by
    norm_num
  constructor
  · have h := C6_divertedness.2.2.2.2 ⟨true, 1, 0, -1⟩ rfl (by rw [hsy]; norm_num)
    have hyaw : head_yaw_deg (-1) (Real.sqrt ((1:ℝ) ^ 2 + (0:ℝ) ^ 2)) = 45 := by
      rw [hsy, head_yaw_deg, show (-(-1:ℝ)) / 1 = 1 by norm_num, Real.arctan_one]
      field_simp
      ring
    have hno : ¬ (computeDiverted ⟨true, 1, 0, -1⟩ = false) := by
      rw [h, hyaw]
      norm_num
    cases hb : computeDiverted ⟨true, 1, 0, -1⟩ with
    | false => exact absurd hb hno
    | true => rfl
  · have h := C6_divertedness.2.2.2.2 ⟨true, 1, 0, 0⟩ rfl (by rw [hsy]; norm_num)
    have hyaw : head_yaw_deg 0 (Real.sqrt ((1:ℝ) ^ 2 + (0:ℝ) ^ 2)) = 0 := by
      rw [hsy, head_yaw_deg, show (-(0:ℝ)) / 1 = 0 by norm_num, Real.arctan_zero]
      ring
    exact h.mpr (by rw [hyaw]; norm_num)

/-- Once the camera flag is cleared the loop body is a no-op. -/
lemma loopStep_inactive (ls : LoopState) (ev : ReadOutcome)
    (h : ls.camera_active = false) : loopStep ls ev = ls := by
  simp [loopStep, h]

/-- Once the camera flag is cleared no sequence of events changes the
state: the "source unavailable" state is terminal. -/
lemma runLoop_inactive (ls : LoopState) (evs : List ReadOutcome)
    (h : ls.camera_active = false) : runLoop ls evs = ls := by
  induction evs with
  | nil => rfl
  | cons e es ih =>
      show runLoop (loopStep ls e) es = ls
      rw [loopStep_inactive ls e h]
      exact ih

/-- C7: in the `_read_frames` loop a successful read resets the
consecutive-failure counter to 0; a failure below the bound only
increments the counter; the failure that reaches the bound of 10 clears
`camera_active` and exits the loop; from a fresh loop state, 10
consecutive failures leave the camera inactive and the loop stopped,
and this state is terminal no matter what events follow. -/
theorem C7_failure_bound :
    (∀ ls : LoopState, ls.looping = true → ls.camera_active = true →
      (loopStep ls .ok).failed_reads = 0) ∧
    (∀ ls : LoopState, ls.looping = true → ls.camera_active = true →
      ls.failed_reads + 1 < max_failed_reads →
      loopStep ls .failed = { ls with failed_reads := ls.failed_reads + 1 }) ∧
    (∀ ls : LoopState, ls.looping = true → ls.camera_active = true →
      max_failed_reads ≤ ls.failed_reads + 1 →
      (loopStep ls .failed).camera_active = false ∧
      (loopStep ls .failed).looping = false) ∧
    ((runLoop initLoopState (List.replicate 10 .failed)).camera_active = false ∧
      (runLoop initLoopState (List.replicate 10 .failed)).looping = false) ∧
    (∀ evs : List ReadOutcome,
      (runLoop initLoopState (List.replicate 10 .failed ++ evs)).camera_active
        = false) := by
  refine ⟨?_, ?_, ?_, ?_, ?_⟩
  · intro ls h1 h2
    simp [loopStep, h1, h2]
  · intro ls h1 h2 hlt
    simp [loopStep, h1, h2, not_le.mpr hlt]
  · intro ls h1 h2 hge
    simp [loopStep, h1, h2, hge]
  · exact ⟨by decide, by decide⟩
  · intro evs
    have hsplit : runLoop initLoopState (List.replicate 10 .failed ++ evs) =
        runLoop (runLoop initLoopState (List.replicate 10 .failed)) evs := by
      simp [runLoop, List.foldl_append]
    have h10 : runLoop initLoopState (List.replicate 10 .failed) =
        ⟨10, false, false⟩ := by decide
    rw [hsplit, h10, runLoop_inactive _ _ rfl]

/-- Witness for C7: the 10th consecutive failure from a live state with
9 recorded failures deactivates the camera and exits the loop. -/
theorem C7_witness :
    (loopStep (⟨9, true, true⟩ : LoopState) .failed).camera_active = false ∧
    (loopStep (⟨9, true, true⟩ : LoopState) .failed).looping = false := by
  exact C7_failure_bound.2.2.1 ⟨9, true, true⟩ rfl rfl (by norm_num [max_failed_reads])

/-- C8: a successfully acquired frame with no detected face yields the
dictionary `face_detected=False, is_diverted=True, is_drowsy=False,
success=True` (with no blink-count entry) and leaves every tracker-state
field unmodified.  (The no-face dictionary carries no EAR or yaw fields
at all, so there are no stale geometry values either.) -/
theorem C8_no_face_snapshot :
    ∀ (s : BlinkState ℝ) (now : ℝ),
      process_frame true s none now =
        (s, { face_detected := false, is_diverted := true, is_drowsy := false,
              blink_count := none, success := true }) := by
  intro s now
  rfl

/-- C9: when the face-mesh model failed to initialise, `process_frame`
returns the fixed dictionary `face_detected=False, is_diverted=True,
is_drowsy=False, success=False` for every input and never mutates any
blink-state counter. -/
theorem C9_no_face_mesh :
    ∀ (s : BlinkState ℝ) (obs : Option FaceObs) (now : ℝ),
      process_frame false s obs now =
        (s, { face_detected := false, is_diverted := true, is_drowsy := false,
              blink_count := none, success := false }) := by
  intro s obs now
  rfl

/-- Degenerate geometry forces the fallback ratio. -/
lemma calculate_ear_of_degenerate (e : Fin 6 → ℝ × ℝ)
    (h : euclidean (e 0) (e 3) = 0) : calculate_ear e = 3 / 10 := by
  simp only [calculate_ear]
  rw [if_neg (by simpa using h)]

/-- Open-eye frames always reset the counter and never set the primary
(sustained-closure) drowsiness flag. -/
lemma stepEAR_of_ge_reset {α : Type} [LinearOrderedField α]
    (s : BlinkState α) (avg_ear now : α) (h : ¬ avg_ear < EAR_THRESHOLD α) :
    (stepEAR s avg_ear now).1.ear_counter = 0 ∧
    (stepEAR s avg_ear now).2 = false := by
  constructor <;> simp [stepEAR, h]

/-- C10: when both eyes have zero horizontal landmark distance, the
fallback gives `avg_ear = 0.3`, which is strictly above the closed
threshold `0.20`, so the frame is treated as eyes-open: the
consecutive-closed counter ends at 0, the sustained-closure drowsiness
rule does not fire, and `is_drowsy` can only come from the secondary
low-blink-rate rule. -/
theorem C10_degenerate_fallback :
    ∀ (l r : Fin 6 → ℝ × ℝ) (s : BlinkState ℝ) (now : ℝ),
      euclidean (l 0) (l 3) = 0 → euclidean (r 0) (r 3) = 0 →
      avg_ear l r = 3 / 10 ∧
      EAR_THRESHOLD ℝ < avg_ear l r ∧
      (processFrameEAR s (avg_ear l r) now).1.ear_counter = 0 ∧
      (stepEAR s (avg_ear l r) now).2 = false ∧
      ((processFrameEAR s (avg_ear l r) now).2 = true →
        60 < now - (processFrameEAR s (avg_ear l r) now).1.last_blink_time ∧
        (processFrameEAR s (avg_ear l r) now).1.blink_rate < 5) := by
  intro l r s now hl hr
  have havg : avg_ear l r = 3 / 10 := by
    rw [avg_ear, calculate_ear_of_degenerate l hl, calculate_ear_of_degenerate r hr]
    norm_num
  have hopen : ¬ avg_ear l r < EAR_THRESHOLD ℝ := by
    rw [havg, EAR_THRESHOLD]
    norm_num
  have hcnt := stepEAR_of_ge_reset s (avg_ear l r) now hopen
  refine ⟨havg, by rw [havg, EAR_THRESHOLD]; norm_num, ?_, hcnt.2, ?_⟩
  · rw [processFrameEAR_fst]
    exact hcnt.1
  · intro hd
    rw [processFrameEAR_fst]
    simp only [processFrameEAR] at hd
    by_cases hc : 60 < now - (stepEAR s (avg_ear l r) now).1.last_blink_time ∧
        (stepEAR s (avg_ear l r) now).1.blink_rate < 5
    · exact hc
    · rw [if_neg hc, hcnt.2] at hd
      exact absurd hd (by simp)

/-- Witness for C10: the all-coincident contour `degenEye` produces
`avg_ear = 0.3` and a zeroed closed-frame counter. -/
theorem C10_witness :
    avg_ear degenEye degenEye = 3 / 10 ∧
    (processFrameEAR (initBlinkState (0:ℝ)) (avg_ear degenEye degenEye) 0).1.ear_counter
      = 0 := by
  have hdeg : euclidean (degenEye 0) (degenEye 3) = 0 := by
    show Real.sqrt (((0:ℝ) - 0) ^ 2 + ((0:ℝ) - 0) ^ 2) = 0
    norm_num
  have h := C10_degenerate_fallback degenEye degenEye (initBlinkState (0:ℝ)) 0 hdeg hdeg
  exact ⟨h.1, h.2.2.1⟩

end Optivue
